import Mathlib

/-!
Shallow embedding of the SMTP connection layer of
`skills/.curated/email-send-notification/scripts/send_email.py`:
recipient splitting, configuration resolution, address-family candidates,
the candidate connection loop, TLS-version configuration, and the probe and
send control flows including session cleanup.

Conventions.  Python `Optional[str]` is `Option String`; the Python
truthiness of an optional string (`None` and `""` are falsy) is `pyTruthy`.
Character-level string operations (`strip`, `split`, `replace`, `lower`) are
modelled on `List Char`.  Network effects are modelled by passing each
network step's outcome in as data: `Option PyErr` with `none` meaning
success, and resolver results as `Except PyErr` values.  The flags
`--print-config-template`, `--check-config`, `--dry-run`, `--debug-smtp`,
`--html`, `--timeout` and `--from-name` do not affect the modelled control
flow and are omitted; `--body`/`--body-file`/`--body-stdin` collapse into a
single `bodyProvided` flag.
-/

deriving instance DecidableEq for Except

namespace SendEmail

/-- Python exception classes distinguished by the script's `except` clauses:
`ssl.SSLError`, `OSError`, `smtplib.SMTPException`, and any other
`Exception`. -/
inductive PyErr where
  | sslError : String → PyErr
  | osError : String → PyErr
  | smtpException : String → PyErr
  | otherError : String → PyErr
  deriving DecidableEq, Repr

/-- Whether an exception is caught by the script's classification handlers
`except ssl.SSLError` / `except (OSError, smtplib.SMTPException)`. -/
def isClassified : PyErr → Bool
  | .sslError _ => true
  | .osError _ => true
  | .smtpException _ => true
  | .otherError _ => false

/-- The `ssl.TLSVersion` members used by `_tls_version_obj`. -/
inductive TLSVersion where
  | v1_0 | v1_1 | v1_2 | v1_3
  deriving DecidableEq, Repr

/-- Numeric value of the `ssl.TLSVersion` enum member
(TLSv1 = 0x301, ..., TLSv1_3 = 0x304); `_resolve_config` compares these
with `>`. -/
def TLSVersion.toNat : TLSVersion → Nat
  | .v1_0 => 769
  | .v1_1 => 770
  | .v1_2 => 771
  | .v1_3 => 772

/-- An `ssl.SSLContext` restricted to the fields the script mutates.
`none` means the field keeps the library default produced by
`ssl.create_default_context()`. -/
structure SSLContext where
  minimumVersion : Option TLSVersion
  maximumVersion : Option TLSVersion
  deriving DecidableEq, Repr

/-- `ssl.create_default_context()`: both version bounds at their library
defaults. -/
def createDefaultContext : SSLContext := ⟨Option.none, Option.none⟩

/-- `_configure_tls_versions`. -/
def configureTlsVersions (ctx : SSLContext) (tlsMin tlsMax : Option TLSVersion) :
    SSLContext :=
  if tlsMin = Option.none ∧ tlsMax = Option.none then ctx
  else
    let ctx1 := match tlsMin with
      | some v => { ctx with minimumVersion := some v }
      | Option.none => ctx
    match tlsMax with
    | some v => { ctx1 with maximumVersion := some v }
    | Option.none => ctx1

/-- The `--smtp-tls` argparse choices. -/
inductive TLSMode where
  | modeNone | starttls | ssl
  deriving DecidableEq, Repr

/-- `_default_port`. -/
def defaultPort (tlsMode : TLSMode) : Int :=
  if tlsMode = TLSMode.ssl then 465 else 587

/-- Python `str.strip()` on a character list (whitespace removed from both
ends). -/
def pyStrip (cs : List Char) : List Char :=
  ((cs.dropWhile Char.isWhitespace).reverse.dropWhile Char.isWhitespace).reverse

/-- Python `value.strip().lower()` of an argument string. -/
def pyStripLower (s : String) : List Char :=
  (pyStrip s.toList).map Char.toLower

/-- The script's address-family preference (`_parse_address_family`
results). -/
inductive AddressFamily where
  | auto | ipv4 | ipv6
  deriving DecidableEq, Repr

/-- `_parse_address_family` (the argparse default makes the value a string,
so the Python `value or ""` guard only renames `""`). -/
def parseAddressFamily (value : String) : Except String AddressFamily :=
  let v := pyStripLower value
  if v = "auto".toList ∨ v = "any".toList ∨ v = [] then .ok .auto
  else if v = "ipv4".toList ∨ v = "4".toList ∨ v = "inet".toList ∨
      v = "af_inet".toList then .ok .ipv4
  else if v = "ipv6".toList ∨ v = "6".toList ∨ v = "inet6".toList ∨
      v = "af_inet6".toList then .ok .ipv6
  else .error ("invalid address family: " ++ value)

/-- `_TLS_VERSION_ALIASES`. -/
def tlsVersionAliases : List (List Char × TLSVersion) :=
  [("1".toList, .v1_0), ("1.0".toList, .v1_0), ("1.1".toList, .v1_1),
   ("1.2".toList, .v1_2), ("1.3".toList, .v1_3),
   ("tls1".toList, .v1_0), ("tls1.0".toList, .v1_0), ("tls1.1".toList, .v1_1),
   ("tls1.2".toList, .v1_2), ("tls1.3".toList, .v1_3)]

/-- `_parse_tls_version`. -/
def parseTlsVersion : Option String → Except String (Option TLSVersion)
  | Option.none => .ok Option.none
  | some value =>
    let v := (pyStrip value.toList).map Char.toLower
    if v = [] then .ok Option.none
    else
      match tlsVersionAliases.lookup v with
      | some t => .ok (some t)
      | Option.none => .error ("invalid TLS version: " ++ value)

/-- Python truthiness of an optional string (`None` and `""` are falsy). -/
def pyTruthy : Option String → Bool
  | Option.none => false
  | some s => s != ""

/-- The character map applied by `value.replace(";", ",")`. -/
def semiToComma (c : Char) : Char := if c = ';' then ',' else c

/-- Python `str.split(",")` (a single-character separator). -/
def splitOnComma : List Char → List (List Char)
  | [] => [[]]
  | c :: rest =>
    if c = ',' then [] :: splitOnComma rest
    else
      match splitOnComma rest with
      | chunk :: chunks => (c :: chunk) :: chunks
      | [] => [[c]]

/-- `_split_recipients` on a character list: replace `;` by `,`, split on
`,`, strip each chunk, keep the non-empty results. -/
def splitRecipientsCore (cs : List Char) : List (List Char) :=
  (splitOnComma (cs.map semiToComma)).filterMap (fun chunk =>
    let addr := pyStrip chunk
    if addr = [] then Option.none else some addr)

/-- `_split_recipients`. -/
def splitRecipients (value : String) : List (List Char) :=
  splitRecipientsCore value.toList

/-- Digit-string evaluation used by the port parser. -/
def digitsToNat (cs : List Char) : Option Nat :=
  cs.foldl (fun acc c =>
    match acc with
    | Option.none => Option.none
    | some n => if c.isDigit then some (n * 10 + (c.toNat - 48)) else Option.none)
    (some 0)

/-- Python `int(s)` as applied to the port argument: optional surrounding
whitespace, an optional sign, then at least one ASCII digit (digit grouping
with underscores is not modelled). -/
def parsePyInt (s : String) : Option Int :=
  match pyStrip s.toList with
  | [] => Option.none
  | '-' :: ds =>
    if ds = [] then Option.none else (digitsToNat ds).map (fun n => -(n : Int))
  | '+' :: ds =>
    if ds = [] then Option.none else (digitsToNat ds).map (fun n => (n : Int))
  | ds => (digitsToNat ds).map (fun n => (n : Int))

/-- The `argparse` result fields consulted by `_resolve_config` and by the
probe/send control flow. -/
structure Args where
  smtpHost : Option String
  smtpPort : Option String
  smtpTls : TLSMode
  smtpUsername : Option String
  smtpPassword : Option String
  addressFamily : String
  tlsMinVersion : Option String
  tlsMaxVersion : Option String
  fromAddr : Option String
  toArg : Option String
  cc : Option String
  bcc : Option String
  subject : Option String
  bodyProvided : Bool
  deriving DecidableEq, Repr

/-- `_ResolvedConfig` (minus `from_name`, which the modelled control flow
never consults). -/
structure ResolvedConfig where
  smtpHost : String
  smtpPort : Int
  smtpTls : TLSMode
  smtpUsername : Option String
  smtpPassword : Option String
  addressFamily : AddressFamily
  tlsMinVersion : Option TLSVersion
  tlsMaxVersion : Option TLSVersion
  fromAddr : String
  toAddrs : List (List Char)
  ccAddrs : List (List Char)
  bccAddrs : List (List Char)
  deriving DecidableEq, Repr

/-- `_resolve_config`.  `parser.error(msg)` prints the message and exits the
process with status 2 before any network I/O; it is modelled as
`Except.error msg`. -/
def resolveConfig (args : Args) : Except String ResolvedConfig :=
  if pyTruthy args.smtpHost = false then
    .error "--smtp-host is required (or env SMTP_HOST)"
  else
    match parsePyInt (args.smtpPort.getD (toString (defaultPort args.smtpTls))) with
    | Option.none => .error "--smtp-port must be an integer"
    | some smtpPort =>
      if pyTruthy args.fromAddr = false then
        .error "--from is required (or env EMAIL_FROM)"
      else if pyTruthy args.toArg = false then
        .error "--to is required (or env EMAIL_TO)"
      else
        let toAddrs := splitRecipients (args.toArg.getD "")
        let ccAddrs := if pyTruthy args.cc then splitRecipients (args.cc.getD "") else []
        let bccAddrs := if pyTruthy args.bcc then splitRecipients (args.bcc.getD "") else []
        if toAddrs = [] then .error "--to must contain at least one recipient"
        else if pyTruthy args.smtpUsername = true ∧ args.smtpPassword = Option.none then
          .error "--smtp-password is required when --smtp-username is set (or env SMTP_PASSWORD)"
        else
          match parseAddressFamily args.addressFamily with
          | .error e => .error e
          | .ok addressFamily =>
            match parseTlsVersion args.tlsMinVersion with
            | .error e => .error e
            | .ok tlsMin =>
              match parseTlsVersion args.tlsMaxVersion with
              | .error e => .error e
              | .ok tlsMax =>
                if (match tlsMin, tlsMax with
                    | some mn, some mx => mn.toNat > mx.toNat
                    | _, _ => false) = true then
                  .error "--tls-min-version must be <= --tls-max-version"
                else
                  .ok { smtpHost := args.smtpHost.getD "", smtpPort := smtpPort,
                        smtpTls := args.smtpTls, smtpUsername := args.smtpUsername,
                        smtpPassword := args.smtpPassword,
                        addressFamily := addressFamily,
                        tlsMinVersion := tlsMin, tlsMaxVersion := tlsMax,
                        fromAddr := args.fromAddr.getD "", toAddrs := toAddrs,
                        ccAddrs := ccAddrs, bccAddrs := bccAddrs }

/-- `socket.AF_INET` / `socket.AF_INET6` / `socket.AF_UNSPEC`. -/
inductive SockFamily where
  | afInet | afInet6 | afUnspec
  deriving DecidableEq, Repr

/-- `_family_candidates`. -/
def familyCandidates : AddressFamily → List SockFamily
  | .ipv4 => [.afInet]
  | .ipv6 => [.afInet6]
  | .auto => [.afUnspec]

/-- One `getaddrinfo` record: the concrete family of the record and the
socket address, abstracted over the address representation `α`. -/
structure AddrInfo (α : Type) where
  family : SockFamily
  sockaddr : α
  deriving DecidableEq, Repr

/-- Inner loop of `_create_connection_socket`: try each resolved candidate in
order, threading `last_exc`; `connect a = none` means the TCP connect
succeeded and that socket is returned at once. -/
def tryCandidates {α : Type} (connect : AddrInfo α → Option PyErr) :
    List (AddrInfo α) → Option PyErr → Option (AddrInfo α) × Option PyErr
  | [], lastExc => (Option.none, lastExc)
  | a :: rest, lastExc =>
    match connect a with
    | Option.none => (some a, lastExc)
    | some e => tryCandidates connect rest (some e)

/-- Outer loop of `_create_connection_socket` over the family candidates,
threading `last_exc` across `getaddrinfo` failures and connect failures. -/
def connectFamilies {α : Type}
    (getaddrinfo : SockFamily → Except PyErr (List (AddrInfo α)))
    (connect : AddrInfo α → Option PyErr) :
    List SockFamily → Option PyErr → Option (AddrInfo α) × Option PyErr
  | [], lastExc => (Option.none, lastExc)
  | f :: rest, lastExc =>
    match getaddrinfo f with
    | .error e => connectFamilies getaddrinfo connect rest (some e)
    | .ok addrinfos =>
      match tryCandidates connect addrinfos lastExc with
      | (some sock, le) => (some sock, le)
      | (Option.none, le) => connectFamilies getaddrinfo connect rest le

/-- `_create_connection_socket`: the first successfully connected candidate,
otherwise the last recorded error, otherwise
`OSError("failed to resolve/connect")`. -/
def createConnectionSocket {α : Type}
    (getaddrinfo : SockFamily → Except PyErr (List (AddrInfo α)))
    (connect : AddrInfo α → Option PyErr) (addressFamily : AddressFamily) :
    Except PyErr (AddrInfo α) :=
  match connectFamilies getaddrinfo connect (familyCandidates addressFamily)
      Option.none with
  | (some sock, _) => .ok sock
  | (Option.none, some e) => .error e
  | (Option.none, Option.none) => .error (PyErr.osError "failed to resolve/connect")

/-- The candidate list offered to `connect` by `_create_connection_socket`:
the records of every family whose `getaddrinfo` call succeeds, in order. -/
def resolutionCandidates {α : Type}
    (getaddrinfo : SockFamily → Except PyErr (List (AddrInfo α)))
    (af : AddressFamily) : List (AddrInfo α) :=
  ((familyCandidates af).map (fun f =>
    match getaddrinfo f with
    | .ok l => l
    | .error _ => [])).flatten

/-- Protocol-level interactions, recorded in execution order.  `connected`
carries the implicit-TLS wrap context handed to `_SMTP_SSL` (`none` for a
plaintext connect); `starttlsUpgrade` carries the context handed to
`smtp.starttls`. -/
inductive SMTPEvent where
  | connected : Option SSLContext → SMTPEvent
  | ehlo : SMTPEvent
  | starttlsUpgrade : SSLContext → SMTPEvent
  | login : String → String → SMTPEvent
  | sendMessage : SMTPEvent
  | quitAttempt : SMTPEvent
  | closeAttempt : SMTPEvent
  deriving DecidableEq, Repr

/-- Result of one process invocation: `exit n` via
`raise SystemExit(main(...))`, or an exception escaping `main`, in which case
the interpreter prints a traceback and exits with status 1. -/
inductive ProcResult where
  | exit : Nat → ProcResult
  | uncaught : PyErr → ProcResult
  deriving DecidableEq, Repr

/-- The process exit status the operating system observes. -/
def procExitCode : ProcResult → Nat
  | .exit n => n
  | .uncaught _ => 1

/-- The (given) outcome of each fallible network step, `none` meaning
success.  Steps after the first failing one never run. -/
structure PhaseOutcomes where
  connectResult : Option PyErr
  ehlo1Result : Option PyErr
  starttlsResult : Option PyErr
  ehlo2Result : Option PyErr
  loginResult : Option PyErr
  sendResult : Option PyErr
  deriving DecidableEq, Repr

/-- All network steps succeed. -/
def happyOutcomes : PhaseOutcomes :=
  ⟨Option.none, Option.none, Option.none, Option.none, Option.none, Option.none⟩

/-- The TLS context `_connect_smtp` builds for `_SMTP_SSL` (implicit TLS):
`ssl.create_default_context()` followed by `_configure_tls_versions`; `none`
when the connection starts in plaintext. -/
def connectSmtpCtx (cfg : ResolvedConfig) : Option SSLContext :=
  if cfg.smtpTls = TLSMode.ssl then
    some (configureTlsVersions createDefaultContext cfg.tlsMinVersion cfg.tlsMaxVersion)
  else Option.none

/-- The `finally` cleanup shared by the probe and send paths:
`try: smtp.quit()` — `except Exception:` — `try: smtp.close()` —
`except Exception: pass`.  Returns the attempted actions in order and the
exception escaping the block (`except Exception` catches every modelled
error, so the escaping exception is `none` in every branch). -/
def sessionCleanup (quitResult closeResult : Option PyErr) :
    List SMTPEvent × Option PyErr :=
  match quitResult with
  | Option.none => ([SMTPEvent.quitAttempt], Option.none)
  | some _ =>
    match closeResult with
    | Option.none => ([SMTPEvent.quitAttempt, SMTPEvent.closeAttempt], Option.none)
    | some _ => ([SMTPEvent.quitAttempt, SMTPEvent.closeAttempt], Option.none)

/-- The de-duplication loop over `(family, ip)` keys in
`_probe_smtp_connection` (`seen` is the set of already-seen keys, modelled
as the list of its elements). -/
def dedupKeysAux {α : Type} [DecidableEq α] : List α → List α → List α
  | [], _ => []
  | k :: rest, seen =>
    if k ∈ seen then dedupKeysAux rest seen
    else k :: dedupKeysAux rest (k :: seen)

/-- The `unique_ips` list of the probe: `(family, ip)` pairs de-duplicated
with first-seen order preserved. -/
def uniquePairs (addrs : List (SockFamily × String)) : List (SockFamily × String) :=
  dedupKeysAux addrs []

/-- The payload of the probe's `resolved_ips=` line: the literal addresses of
the first 10 unique `(family, ip)` pairs.  Nothing is printed when the
resolve step raises (the bare `except Exception: pass`) or finds no
addresses. -/
def probePrintedIps (resolveAll : Except PyErr (List (SockFamily × String))) :
    Option (List String) :=
  match resolveAll with
  | .error _ => Option.none
  | .ok addrs =>
    let u := uniquePairs addrs
    if u = [] then Option.none
    else some ((u.take 10).map Prod.snd)

/-- The probe's authentication step (`if auth and cfg.smtp_username:`); the
password sent is `cfg.smtp_password or ""`. -/
def probeAuthStep (cfg : ResolvedConfig) (auth : Bool) (po : PhaseOutcomes)
    (pre : List SMTPEvent) : List SMTPEvent × Option PyErr :=
  if auth ∧ pyTruthy cfg.smtpUsername = true then
    (pre ++ [SMTPEvent.login (cfg.smtpUsername.getD "") (cfg.smtpPassword.getD "")],
     po.loginResult)
  else (pre, Option.none)

/-- The body of the probe's `try:` block: EHLO; when
`not is_ssl and cfg.smtp_tls == "starttls"` (equivalent to
tls mode = starttls, since `is_ssl` holds exactly for mode ssl) a STARTTLS
upgrade — with a fresh `ssl.create_default_context()` to which
`_configure_tls_versions` is NOT applied — followed by a second EHLO; then
the optional authentication.  Returns the events executed and the first
failure. -/
def probeBody (cfg : ResolvedConfig) (auth : Bool) (po : PhaseOutcomes) :
    List SMTPEvent × Option PyErr :=
  match po.ehlo1Result with
  | some e => ([SMTPEvent.ehlo], some e)
  | Option.none =>
    if cfg.smtpTls = TLSMode.starttls then
      match po.starttlsResult with
      | some e => ([SMTPEvent.ehlo, SMTPEvent.starttlsUpgrade createDefaultContext], some e)
      | Option.none =>
        match po.ehlo2Result with
        | some e =>
          ([SMTPEvent.ehlo, SMTPEvent.starttlsUpgrade createDefaultContext,
            SMTPEvent.ehlo], some e)
        | Option.none =>
          probeAuthStep cfg auth po
            [SMTPEvent.ehlo, SMTPEvent.starttlsUpgrade createDefaultContext,
             SMTPEvent.ehlo]
    else probeAuthStep cfg auth po [SMTPEvent.ehlo]

/-- Outcome of a probe or send invocation: what the resolve step printed,
the protocol interactions in order, and the process result. -/
structure RunResult where
  printedIps : Option (List String)
  events : List SMTPEvent
  result : ProcResult
  deriving DecidableEq, Repr

/-- `_probe_smtp_connection`: the resolved-ip report (all of whose
exceptions are swallowed), then `_connect_smtp` OUTSIDE any `try:` — a
connection or implicit-TLS failure there propagates out of `main` as an
uncaught exception — then the guarded body whose classified failures print
`probe=failed ...` plus remediation hints and return 2, with the `finally`
cleanup running on every body outcome. -/
def probeRun (cfg : ResolvedConfig) (auth : Bool)
    (resolveAll : Except PyErr (List (SockFamily × String)))
    (po : PhaseOutcomes) (quitResult closeResult : Option PyErr) : RunResult :=
  let printed := probePrintedIps resolveAll
  match po.connectResult with
  | some e => ⟨printed, [], ProcResult.uncaught e⟩
  | Option.none =>
    let body := probeBody cfg auth po
    let cleanup := sessionCleanup quitResult closeResult
    let events := SMTPEvent.connected (connectSmtpCtx cfg) :: body.1 ++ cleanup.1
    let result :=
      match cleanup.2 with
      | some e => ProcResult.uncaught e
      | Option.none =>
        match body.2 with
        | Option.none => ProcResult.exit 0
        | some e =>
          if isClassified e = true then ProcResult.exit 2 else ProcResult.uncaught e
    ⟨printed, events, result⟩

/-- The send path's authentication step (`if cfg.smtp_username:`); the
password sent is `cfg.smtp_password or ""`. -/
def sendAuthStep (cfg : ResolvedConfig) (po : PhaseOutcomes)
    (pre : List SMTPEvent) : List SMTPEvent × Option PyErr :=
  if pyTruthy cfg.smtpUsername = true then
    (pre ++ [SMTPEvent.login (cfg.smtpUsername.getD "") (cfg.smtpPassword.getD "")],
     po.loginResult)
  else (pre, Option.none)

/-- The body of the send path's `try ... finally` block: EHLO; when the tls
mode is starttls, a STARTTLS upgrade with a default context to which
`_configure_tls_versions` IS applied, then a second EHLO; optional
authentication; then `send_message`. -/
def sendBody (cfg : ResolvedConfig) (po : PhaseOutcomes) :
    List SMTPEvent × Option PyErr :=
  match po.ehlo1Result with
  | some e => ([SMTPEvent.ehlo], some e)
  | Option.none =>
    let stls : List SMTPEvent × Option PyErr :=
      if cfg.smtpTls = TLSMode.starttls then
        let ctx := configureTlsVersions createDefaultContext cfg.tlsMinVersion
          cfg.tlsMaxVersion
        match po.starttlsResult with
        | some e => ([SMTPEvent.starttlsUpgrade ctx], some e)
        | Option.none =>
          match po.ehlo2Result with
          | some e => ([SMTPEvent.starttlsUpgrade ctx, SMTPEvent.ehlo], some e)
          | Option.none => ([SMTPEvent.starttlsUpgrade ctx, SMTPEvent.ehlo], Option.none)
      else ([], Option.none)
    match stls.2 with
    | some e => (SMTPEvent.ehlo :: stls.1, some e)
    | Option.none =>
      let auth := sendAuthStep cfg po (SMTPEvent.ehlo :: stls.1)
      match auth.2 with
      | some e => (auth.1, some e)
      | Option.none =>
        match po.sendResult with
        | some e => (auth.1 ++ [SMTPEvent.sendMessage], some e)
        | Option.none => (auth.1 ++ [SMTPEvent.sendMessage], Option.none)

/-- The send path of `main` after message construction: `_connect_smtp`
inside `try/except` — classified failures print `send=failed ...` plus hints
and return 2 — then a `try` body with NO `except` clause and only a
`finally`, so any body failure propagates out of `main` (uncaught) after the
cleanup runs; `return 0` otherwise. -/
def sendRun (cfg : ResolvedConfig) (po : PhaseOutcomes)
    (quitResult closeResult : Option PyErr) : RunResult :=
  match po.connectResult with
  | some e =>
    ⟨Option.none, [],
     if isClassified e = true then ProcResult.exit 2 else ProcResult.uncaught e⟩
  | Option.none =>
    let body := sendBody cfg po
    let cleanup := sessionCleanup quitResult closeResult
    let events := SMTPEvent.connected (connectSmtpCtx cfg) :: body.1 ++ cleanup.1
    let result :=
      match cleanup.2 with
      | some e => ProcResult.uncaught e
      | Option.none =>
        match body.2 with
        | Option.none => ProcResult.exit 0
        | some e => ProcResult.uncaught e
    ⟨Option.none, events, result⟩

/-- `main` after argument parsing, restricted to the probe/send flows:
`_resolve_config` (a `parser.error` exits with status 2 before any network
I/O), then the probe dispatch, then the subject/body requirements guarding
the send flow. -/
def mainRun (args : Args) (probe probeAuth : Bool)
    (resolveAll : Except PyErr (List (SockFamily × String)))
    (po : PhaseOutcomes) (quitResult closeResult : Option PyErr) : RunResult :=
  match resolveConfig args with
  | .error _ => ⟨Option.none, [], ProcResult.exit 2⟩
  | .ok cfg =>
    if probe then probeRun cfg probeAuth resolveAll po quitResult closeResult
    else if pyTruthy args.subject = false then ⟨Option.none, [], ProcResult.exit 2⟩
    else if args.bodyProvided = false then ⟨Option.none, [], ProcResult.exit 2⟩
    else sendRun cfg po quitResult closeResult

/-- A resolved configuration with tls mode starttls, credentials, and a
pinned minimum TLS version. -/
def sampleStarttlsCfg : ResolvedConfig :=
  { smtpHost := "mail.example.net", smtpPort := 587, smtpTls := TLSMode.starttls,
    smtpUsername := some "user@example.net", smtpPassword := some "p",
    addressFamily := AddressFamily.auto, tlsMinVersion := some TLSVersion.v1_2,
    tlsMaxVersion := Option.none, fromAddr := "user@example.net",
    toAddrs := [['r', '@', 'x']], ccAddrs := [], bccAddrs := [] }

/-- Parsed arguments with a username configured but no password. -/
def sampleArgsNoPw : Args :=
  { smtpHost := some "mail.example.net", smtpPort := Option.none,
    smtpTls := TLSMode.starttls, smtpUsername := some "user@example.net",
    smtpPassword := Option.none, addressFamily := "auto",
    tlsMinVersion := Option.none, tlsMaxVersion := Option.none,
    fromAddr := some "user@example.net", toArg := some "r@x",
    cc := Option.none, bcc := Option.none, subject := some "s",
    bodyProvided := true }

/-- Parsed arguments whose `--to` value consists only of separators and
whitespace. -/
def sampleArgsSepTo : Args :=
  { sampleArgsNoPw with
    smtpUsername := Option.none,
    toArg := some " ; ,,  ; " }

/-- Parsed arguments with both TLS version pins set. -/
def sampleArgsPinned (mn mx : String) : Args :=
  { sampleArgsNoPw with
    smtpUsername := Option.none,
    tlsMinVersion := some mn, tlsMaxVersion := some mx }

/-! ### Helper lemmas about the connection loop -/

/-- When every candidate's connect attempt fails, the inner loop ends with
`last_exc` holding the error of the last candidate. -/
theorem tryCandidates_all_fail {α : Type} (connect : AddrInfo α → Option PyErr)
    (errf : AddrInfo α → PyErr) (init : List (AddrInfo α)) (alast : AddrInfo α) :
    ∀ (lastExc : Option PyErr),
      (∀ a ∈ init ++ [alast], connect a = some (errf a)) →
      tryCandidates connect (init ++ [alast]) lastExc =
        (Option.none, some (errf alast)) := by
  induction init with
  | nil =>
    intro lastExc h
    simp [tryCandidates, h alast (by simp)]
  | cons a init ih =>
    intro lastExc h
    have ha := h a (by simp)
    simp only [List.cons_append, tryCandidates, ha]
    exact ih _ (fun b hb => h b (by simp at hb ⊢; tauto))

/-- The family-candidate list is always a single family. -/
theorem familyCandidates_singleton (af : AddressFamily) :
    ∃ f, familyCandidates af = [f] := by
  cases af <;> exact ⟨_, rfl⟩

/-- A socket returned by the inner loop is one of the candidates it was
given. -/
theorem tryCandidates_mem {α : Type} (connect : AddrInfo α → Option PyErr) :
    ∀ (l : List (AddrInfo α)) (lastExc le2 : Option PyErr) (s : AddrInfo α),
      tryCandidates connect l lastExc = (some s, le2) → s ∈ l := by
  intro l
  induction l with
  | nil => intro lastExc le2 s h; simp [tryCandidates] at h
  | cons a rest ih =>
    intro lastExc le2 s h
    simp only [tryCandidates] at h
    cases hc : connect a with
    | none =>
      rw [hc] at h
      simp at h
      simp [h.1]
    | some e =>
      rw [hc] at h
      exact List.mem_cons_of_mem a (ih _ _ _ h)

/-- A socket returned by the outer loop comes from a successfully resolved
family's candidate list. -/
theorem connectFamilies_mem {α : Type}
    (getaddrinfo : SockFamily → Except PyErr (List (AddrInfo α)))
    (connect : AddrInfo α → Option PyErr) :
    ∀ (fams : List SockFamily) (lastExc le2 : Option PyErr) (s : AddrInfo α),
      connectFamilies getaddrinfo connect fams lastExc = (some s, le2) →
      ∃ f ∈ fams, ∃ l, getaddrinfo f = .ok l ∧ s ∈ l := by
  intro fams
  induction fams with
  | nil => intro lastExc le2 s h; simp [connectFamilies] at h
  | cons f rest ih =>
    intro lastExc le2 s h
    simp only [connectFamilies] at h
    cases hg : getaddrinfo f with
    | error e =>
      rw [hg] at h
      obtain ⟨f2, hf2, l, hl, hs⟩ := ih _ _ _ h
      exact ⟨f2, List.mem_cons_of_mem f hf2, l, hl, hs⟩
    | ok addrinfos =>
      rw [hg] at h
      dsimp only at h
      cases ht : tryCandidates connect addrinfos lastExc with
      | mk fst le =>
        cases fst with
        | none =>
          rw [ht] at h
          obtain ⟨f2, hf2, l, hl, hs⟩ := ih _ _ _ h
          exact ⟨f2, List.mem_cons_of_mem f hf2, l, hl, hs⟩
        | some sock =>
          rw [ht] at h
          simp at h
          exact ⟨f, List.mem_cons_self f rest, addrinfos,
            hg, h.1 ▸ tryCandidates_mem connect _ _ _ _ ht⟩

/-- Claim C2: when resolution succeeds and every candidate's TCP connect
attempt fails, `_create_connection_socket` raises exactly the error recorded
for the last candidate attempted; earlier candidates' errors are
discarded. -/
theorem createConnectionSocket_last_candidate_error {α : Type}
    (getaddrinfo : SockFamily → Except PyErr (List (AddrInfo α)))
    (connect : AddrInfo α → Option PyErr) (af : AddressFamily)
    (errf : AddrInfo α → PyErr) (init : List (AddrInfo α)) (alast : AddrInfo α)
    (hres : ∀ f ∈ familyCandidates af, getaddrinfo f = .ok (init ++ [alast]))
    (hfail : ∀ a ∈ init ++ [alast], connect a = some (errf a)) :
    createConnectionSocket getaddrinfo connect af = .error (errf alast) := by
  obtain ⟨f, hf⟩ := familyCandidates_singleton af
  have h1 : getaddrinfo f = .ok (init ++ [alast]) := hres f (by simp [hf])
  have h2 := tryCandidates_all_fail connect errf init alast Option.none hfail
  simp [createConnectionSocket, hf, connectFamilies, h1, h2]

/-- Witness for C2: two IPv4 candidates that both refuse the connection; the
raised error is the second (last) candidate's. -/
theorem createConnectionSocket_last_candidate_error_witness :
    createConnectionSocket
      (fun _ => Except.ok [AddrInfo.mk SockFamily.afInet "192.0.2.1",
        AddrInfo.mk SockFamily.afInet "192.0.2.2"])
      (fun a => some (PyErr.osError a.sockaddr)) AddressFamily.ipv4 =
      .error (PyErr.osError "192.0.2.2") := by
  exact createConnectionSocket_last_candidate_error
    (fun _ => Except.ok [AddrInfo.mk SockFamily.afInet "192.0.2.1",
      AddrInfo.mk SockFamily.afInet "192.0.2.2"])
    (fun a => some (PyErr.osError a.sockaddr)) AddressFamily.ipv4
    (fun a => PyErr.osError a.sockaddr)
    [AddrInfo.mk SockFamily.afInet "192.0.2.1"]
    (AddrInfo.mk SockFamily.afInet "192.0.2.2")
    (fun f hf => rfl)
    (fun a ha => rfl)

/-! ### Claim C7 -/

/-- Claim C7, amended: with `address_family = ipv4` the connection step only
consults the IPv4 resolution, so (given the platform `getaddrinfo` contract
that a family-restricted query returns only records of that family) every
candidate it attempts and any socket it returns has family IPv4;
symmetrically for `ipv6`.  (The probe's separate resolved-address report is
NOT family-restricted; see the counterexample.) -/
theorem attempted_candidates_match_family {α : Type}
    (getaddrinfo : SockFamily → Except PyErr (List (AddrInfo α)))
    (connect : AddrInfo α → Option PyErr)
    (h4 : ∀ l, getaddrinfo SockFamily.afInet = .ok l →
      ∀ ai ∈ l, ai.family = SockFamily.afInet)
    (h6 : ∀ l, getaddrinfo SockFamily.afInet6 = .ok l →
      ∀ ai ∈ l, ai.family = SockFamily.afInet6) :
    (∀ ai ∈ resolutionCandidates getaddrinfo AddressFamily.ipv4,
      ai.family = SockFamily.afInet)
    ∧ (∀ ai ∈ resolutionCandidates getaddrinfo AddressFamily.ipv6,
      ai.family = SockFamily.afInet6)
    ∧ (∀ sock, createConnectionSocket getaddrinfo connect AddressFamily.ipv4 =
        .ok sock → sock.family = SockFamily.afInet)
    ∧ (∀ sock, createConnectionSocket getaddrinfo connect AddressFamily.ipv6 =
        .ok sock → sock.family = SockFamily.afInet6) := by
  have hok : ∀ (af : AddressFamily) (sock : AddrInfo α),
      createConnectionSocket getaddrinfo connect af = .ok sock →
      ∃ f ∈ familyCandidates af, ∃ l, getaddrinfo f = .ok l ∧ sock ∈ l := by
    intro af sock h
    unfold createConnectionSocket at h
    cases hc : connectFamilies getaddrinfo connect (familyCandidates af)
        Option.none with
    | mk fst le =>
      cases fst with
      | none => rw [hc] at h; cases le <;> simp at h
      | some s =>
        rw [hc] at h
        simp at h
        exact h ▸ connectFamilies_mem getaddrinfo connect _ _ _ _ hc
  refine ⟨?_, ?_, ?_, ?_⟩
  · intro ai hai
    simp [resolutionCandidates, familyCandidates] at hai
    cases hg : getaddrinfo SockFamily.afInet with
    | error e => rw [hg] at hai; simp at hai
    | ok l => rw [hg] at hai; exact h4 l hg ai hai
  · intro ai hai
    simp [resolutionCandidates, familyCandidates] at hai
    cases hg : getaddrinfo SockFamily.afInet6 with
    | error e => rw [hg] at hai; simp at hai
    | ok l => rw [hg] at hai; exact h6 l hg ai hai
  · intro sock h
    obtain ⟨f, hf, l, hl, hs⟩ := hok AddressFamily.ipv4 sock h
    simp [familyCandidates] at hf
    subst hf
    exact h4 l hl sock hs
  · intro sock h
    obtain ⟨f, hf, l, hl, hs⟩ := hok AddressFamily.ipv6 sock h
    simp [familyCandidates] at hf
    subst hf
    exact h6 l hl sock hs

/-- Witness for the amended C7 at a concrete dual-stack resolver. -/
theorem attempted_candidates_match_family_witness :
    (∀ ai ∈ resolutionCandidates
        (fun f => match f with
          | SockFamily.afInet => Except.ok [AddrInfo.mk SockFamily.afInet "192.0.2.1"]
          | SockFamily.afInet6 => Except.ok [AddrInfo.mk SockFamily.afInet6 "2001:db8::1"]
          | SockFamily.afUnspec => Except.ok [AddrInfo.mk SockFamily.afInet6 "2001:db8::1",
              AddrInfo.mk SockFamily.afInet "192.0.2.1"])
        AddressFamily.ipv4,
      ai.family = SockFamily.afInet)
    ∧ (∀ ai ∈ resolutionCandidates
        (fun f => match f with
          | SockFamily.afInet => Except.ok [AddrInfo.mk SockFamily.afInet "192.0.2.1"]
          | SockFamily.afInet6 => Except.ok [AddrInfo.mk SockFamily.afInet6 "2001:db8::1"]
          | SockFamily.afUnspec => Except.ok [AddrInfo.mk SockFamily.afInet6 "2001:db8::1",
              AddrInfo.mk SockFamily.afInet "192.0.2.1"])
        AddressFamily.ipv6,
      ai.family = SockFamily.afInet6)
    ∧ (∀ sock, createConnectionSocket
        (fun f => match f with
          | SockFamily.afInet => Except.ok [AddrInfo.mk SockFamily.afInet "192.0.2.1"]
          | SockFamily.afInet6 => Except.ok [AddrInfo.mk SockFamily.afInet6 "2001:db8::1"]
          | SockFamily.afUnspec => Except.ok [AddrInfo.mk SockFamily.afInet6 "2001:db8::1",
              AddrInfo.mk SockFamily.afInet "192.0.2.1"])
        (fun _ => Option.none) AddressFamily.ipv4 =
        .ok sock → sock.family = SockFamily.afInet)
    ∧ (∀ sock, createConnectionSocket
        (fun f => match f with
          | SockFamily.afInet => Except.ok [AddrInfo.mk SockFamily.afInet "192.0.2.1"]
          | SockFamily.afInet6 => Except.ok [AddrInfo.mk SockFamily.afInet6 "2001:db8::1"]
          | SockFamily.afUnspec => Except.ok [AddrInfo.mk SockFamily.afInet6 "2001:db8::1",
              AddrInfo.mk SockFamily.afInet "192.0.2.1"])
        (fun _ => Option.none) AddressFamily.ipv6 =
        .ok sock → sock.family = SockFamily.afInet6) := by
  exact attempted_candidates_match_family _ _
    (by intro l hl ai hai; simp at hl; subst hl; simp at hai; subst hai; rfl)
    (by intro l hl ai hai; simp at hl; subst hl; simp at hai; subst hai; rfl)

/-- Counterexample to C7 as stated: the probe's resolved-address report uses
an unrestricted `getaddrinfo` (no family argument, line 316), so with
`address_family = ipv4` and a dual-stack host the report contains an IPv6
pair; the printed line carries its literal. -/
theorem probe_report_not_family_restricted :
    (probeRun
      { smtpHost := "mail.example.net", smtpPort := 587,
        smtpTls := TLSMode.starttls, smtpUsername := Option.none,
        smtpPassword := Option.none, addressFamily := AddressFamily.ipv4,
        tlsMinVersion := Option.none, tlsMaxVersion := Option.none,
        fromAddr := "a@x", toAddrs := [['b']], ccAddrs := [], bccAddrs := [] }
      false
      (Except.ok [(SockFamily.afInet6, "2001:db8::1"), (SockFamily.afInet, "192.0.2.1")])
      happyOutcomes Option.none Option.none).printedIps =
      some ["2001:db8::1", "192.0.2.1"]
    ∧ (SockFamily.afInet6, "2001:db8::1") ∈
      uniquePairs [(SockFamily.afInet6, "2001:db8::1"), (SockFamily.afInet, "192.0.2.1")]
    ∧ (SockFamily.afInet6 ≠ SockFamily.afInet) := by
  refine ⟨by decide, by decide, by decide⟩

/-! ### Claim C1 -/

/-- Claim C1 (code bug): the exit-code contract is broken on both paths.  In
the probe path `_connect_smtp` sits outside the `try:`, so a classified
connection failure escapes `main` uncaught (interpreter status 1, no
`probe=failed` line, no hints) instead of exiting 2; in the send path the
post-connection block has no `except` clause, so a classified greeting (or
later) failure likewise escapes uncaught.  The contract does hold for the
phases each path guards: a classified body failure in the probe, and a
classified connect failure in the send path, exit 2. -/
theorem classified_failures_escape_exit_contract :
    (probeRun sampleStarttlsCfg false (Except.ok [])
      { happyOutcomes with connectResult := some (PyErr.osError "connection refused") }
      Option.none Option.none).result =
      ProcResult.uncaught (PyErr.osError "connection refused")
    ∧ isClassified (PyErr.osError "connection refused") = true
    ∧ procExitCode (probeRun sampleStarttlsCfg false (Except.ok [])
        { happyOutcomes with connectResult := some (PyErr.osError "connection refused") }
        Option.none Option.none).result = 1
    ∧ (sendRun sampleStarttlsCfg
        { happyOutcomes with ehlo1Result := some (PyErr.smtpException "server disconnected") }
        Option.none Option.none).result =
        ProcResult.uncaught (PyErr.smtpException "server disconnected")
    ∧ isClassified (PyErr.smtpException "server disconnected") = true
    ∧ (probeRun sampleStarttlsCfg false (Except.ok [])
        { happyOutcomes with ehlo1Result := some (PyErr.smtpException "server disconnected") }
        Option.none Option.none).result = ProcResult.exit 2
    ∧ (sendRun sampleStarttlsCfg
        { happyOutcomes with connectResult := some (PyErr.osError "connection refused") }
        Option.none Option.none).result = ProcResult.exit 2
    ∧ (probeRun sampleStarttlsCfg false (Except.ok []) happyOutcomes
        Option.none Option.none).result = ProcResult.exit 0
    ∧ (sendRun sampleStarttlsCfg happyOutcomes Option.none Option.none).result =
        ProcResult.exit 0 := by
  decide

/-! ### Claim C3 -/

/-- Claim C3 (code bug): the probe path's STARTTLS upgrade uses a fresh
`ssl.create_default_context()` WITHOUT `_configure_tls_versions`, so the
configured minimum version is ignored there, while the send path's STARTTLS
context does receive the configured bounds. -/
theorem probe_starttls_context_ignores_version_pins :
    sampleStarttlsCfg.tlsMinVersion = some TLSVersion.v1_2
    ∧ (probeRun sampleStarttlsCfg false (Except.ok []) happyOutcomes
        Option.none Option.none).events =
        [SMTPEvent.connected Option.none, SMTPEvent.ehlo,
         SMTPEvent.starttlsUpgrade createDefaultContext, SMTPEvent.ehlo,
         SMTPEvent.quitAttempt]
    ∧ createDefaultContext.minimumVersion = Option.none
    ∧ (sendRun sampleStarttlsCfg happyOutcomes Option.none Option.none).events =
        [SMTPEvent.connected Option.none, SMTPEvent.ehlo,
         SMTPEvent.starttlsUpgrade (SSLContext.mk (some TLSVersion.v1_2) Option.none),
         SMTPEvent.ehlo, SMTPEvent.login "user@example.net" "p",
         SMTPEvent.sendMessage, SMTPEvent.quitAttempt] := by
  decide

/-! ### Claim C5 -/

/-- Claim C5: with tls mode starttls, both the probe and the send path
record greet, upgrade, greet again, and only then auth/send — the second
EHLO immediately follows the successful upgrade and precedes any login or
message transmission. -/
theorem starttls_regreets_before_auth_and_send (cfg : ResolvedConfig)
    (auth : Bool) (resolveAll : Except PyErr (List (SockFamily × String)))
    (q c : Option PyErr) (h : cfg.smtpTls = TLSMode.starttls) :
    (probeRun cfg auth resolveAll happyOutcomes q c).events =
      [SMTPEvent.connected Option.none, SMTPEvent.ehlo,
       SMTPEvent.starttlsUpgrade createDefaultContext, SMTPEvent.ehlo]
      ++ (if auth ∧ pyTruthy cfg.smtpUsername = true then
            [SMTPEvent.login (cfg.smtpUsername.getD "") (cfg.smtpPassword.getD "")]
          else [])
      ++ (sessionCleanup q c).1
    ∧ (sendRun cfg happyOutcomes q c).events =
      [SMTPEvent.connected Option.none, SMTPEvent.ehlo,
       SMTPEvent.starttlsUpgrade
         (configureTlsVersions createDefaultContext cfg.tlsMinVersion cfg.tlsMaxVersion),
       SMTPEvent.ehlo]
      ++ (if pyTruthy cfg.smtpUsername = true then
            [SMTPEvent.login (cfg.smtpUsername.getD "") (cfg.smtpPassword.getD "")]
          else [])
      ++ [SMTPEvent.sendMessage]
      ++ (sessionCleanup q c).1 := by
  constructor
  · by_cases ha : auth ∧ pyTruthy cfg.smtpUsername = true <;>
      simp [probeRun, probeBody, probeAuthStep, happyOutcomes, connectSmtpCtx, h, ha]
  · by_cases hu : pyTruthy cfg.smtpUsername = true <;>
      simp [sendRun, sendBody, sendAuthStep, happyOutcomes, connectSmtpCtx, h, hu]

/-- Witness for C5 at a concrete starttls configuration with credentials and
probe-auth requested. -/
theorem starttls_regreets_before_auth_and_send_witness :
    (probeRun sampleStarttlsCfg true (Except.ok []) happyOutcomes
      Option.none Option.none).events =
      [SMTPEvent.connected Option.none, SMTPEvent.ehlo,
       SMTPEvent.starttlsUpgrade createDefaultContext, SMTPEvent.ehlo]
      ++ (if True ∧ pyTruthy sampleStarttlsCfg.smtpUsername = true then
            [SMTPEvent.login (sampleStarttlsCfg.smtpUsername.getD "")
              (sampleStarttlsCfg.smtpPassword.getD "")]
          else [])
      ++ (sessionCleanup Option.none Option.none).1
    ∧ (sendRun sampleStarttlsCfg happyOutcomes Option.none Option.none).events =
      [SMTPEvent.connected Option.none, SMTPEvent.ehlo,
       SMTPEvent.starttlsUpgrade
         (configureTlsVersions createDefaultContext sampleStarttlsCfg.tlsMinVersion
           sampleStarttlsCfg.tlsMaxVersion),
       SMTPEvent.ehlo]
      ++ (if pyTruthy sampleStarttlsCfg.smtpUsername = true then
            [SMTPEvent.login (sampleStarttlsCfg.smtpUsername.getD "")
              (sampleStarttlsCfg.smtpPassword.getD "")]
          else [])
      ++ [SMTPEvent.sendMessage]
      ++ (sessionCleanup Option.none Option.none).1 := by
  have h := starttls_regreets_before_auth_and_send sampleStarttlsCfg true
    (Except.ok []) Option.none Option.none rfl
  simpa using h

/-! ### Claim C8 -/

/-- Claim C8: on both paths the cleanup first attempts a graceful `quit()`,
falls back to `close()` exactly when `quit()` raises, never lets a cleanup
error escape, and the primary result is unchanged by whatever the cleanup
steps do; whenever a session exists (connect succeeded) the cleanup steps
run after the body's events on every outcome. -/
theorem cleanup_is_quit_then_close_and_never_masks (cfg : ResolvedConfig)
    (auth : Bool) (resolveAll : Except PyErr (List (SockFamily × String)))
    (po : PhaseOutcomes) (q q2 c c2 : Option PyErr) :
    (sessionCleanup q c).2 = Option.none
    ∧ (sessionCleanup q c).1 =
        (if q.isSome then [SMTPEvent.quitAttempt, SMTPEvent.closeAttempt]
         else [SMTPEvent.quitAttempt])
    ∧ (probeRun cfg auth resolveAll po q c).result =
        (probeRun cfg auth resolveAll po q2 c2).result
    ∧ (sendRun cfg po q c).result = (sendRun cfg po q2 c2).result
    ∧ (probeRun cfg auth resolveAll { po with connectResult := Option.none } q c).events =
        SMTPEvent.connected (connectSmtpCtx cfg) ::
          (probeBody cfg auth { po with connectResult := Option.none }).1
          ++ (sessionCleanup q c).1
    ∧ (sendRun cfg { po with connectResult := Option.none } q c).events =
        SMTPEvent.connected (connectSmtpCtx cfg) ::
          (sendBody cfg { po with connectResult := Option.none }).1
          ++ (sessionCleanup q c).1 := by
  obtain ⟨pc, r1, r2, r3, r4, r5⟩ := po
  cases pc <;> cases q <;> cases c <;> cases q2 <;> cases c2 <;>
    simp [probeRun, sendRun, sessionCleanup]

/-! ### Helper lemmas about the de-duplication loop -/

/-- The loop only consults `seen` through membership. -/
theorem dedupKeysAux_congr {α : Type} [DecidableEq α] :
    ∀ (l seen seen' : List α), (∀ x, x ∈ seen ↔ x ∈ seen') →
      dedupKeysAux l seen = dedupKeysAux l seen' := by
  intro l
  induction l with
  | nil => intro seen seen' h; rfl
  | cons k rest ih =>
    intro seen seen' h
    by_cases hk : k ∈ seen
    · have hk' : k ∈ seen' := (h k).1 hk
      simp [dedupKeysAux, hk, hk', ih seen seen' h]
    · have hk' : k ∉ seen' := fun hx => hk ((h k).2 hx)
      simp only [dedupKeysAux, if_neg hk, if_neg hk']
      exact congrArg (k :: ·) (ih _ _ (by intro x; simp [List.mem_cons, h x]))

/-- Membership in the de-duplicated list. -/
theorem mem_dedupKeysAux {α : Type} [DecidableEq α] :
    ∀ (l seen : List α) (x : α),
      x ∈ dedupKeysAux l seen ↔ x ∈ l ∧ x ∉ seen := by
  intro l
  induction l with
  | nil => intro seen x; simp [dedupKeysAux]
  | cons k rest ih =>
    intro seen x
    by_cases hk : k ∈ seen
    · simp only [dedupKeysAux, if_pos hk, ih, List.mem_cons]
      constructor
      · rintro ⟨hx, hs⟩; exact ⟨Or.inr hx, hs⟩
      · rintro ⟨hx | hx, hs⟩
        · exact absurd (hx ▸ hk) hs
        · exact ⟨hx, hs⟩
    · by_cases hxk : x = k
      · subst hxk
        simp [dedupKeysAux, if_neg hk, hk]
      · simp [dedupKeysAux, if_neg hk, ih, List.mem_cons, hxk]

/-- The de-duplicated list has no duplicates. -/
theorem nodup_dedupKeysAux {α : Type} [DecidableEq α] :
    ∀ (l seen : List α), (dedupKeysAux l seen).Nodup := by
  intro l
  induction l with
  | nil => intro seen; simp [dedupKeysAux]
  | cons k rest ih =>
    intro seen
    by_cases hk : k ∈ seen
    · simpa [dedupKeysAux, if_pos hk] using ih seen
    · simp only [dedupKeysAux, if_neg hk, List.nodup_cons]
      refine ⟨fun hmem => ?_, ih _⟩
      exact ((mem_dedupKeysAux rest (k :: seen) k).1 hmem).2 (List.mem_cons_self k seen)

/-- The de-duplicated list is a sublist of the input (relative order is
preserved). -/
theorem dedupKeysAux_sublist {α : Type} [DecidableEq α] :
    ∀ (l seen : List α), List.Sublist (dedupKeysAux l seen) l := by
  intro l
  induction l with
  | nil => intro seen; simp [dedupKeysAux]
  | cons k rest ih =>
    intro seen
    by_cases hk : k ∈ seen
    · simpa [dedupKeysAux, if_pos hk] using (ih seen).cons k
    · simpa [dedupKeysAux, if_neg hk] using (ih (k :: seen)).cons₂ k

/-- Marking `k` as seen is the same as filtering `k` out of the rest. -/
theorem dedupKeysAux_seen_cons {α : Type} [DecidableEq α] :
    ∀ (l seen : List α) (k : α),
      dedupKeysAux l (k :: seen) =
        dedupKeysAux (l.filter (fun x => decide (x ≠ k))) seen := by
  intro l
  induction l with
  | nil => intro seen k; rfl
  | cons a rest ih =>
    intro seen k
    by_cases hak : a = k
    · subst hak
      simp [dedupKeysAux, List.filter, ih]
    · by_cases has : a ∈ seen
      · have : a ∈ k :: seen := List.mem_cons_of_mem k has
        simp [dedupKeysAux, this, List.filter, hak, has, ih]
      · have hnot : a ∉ k :: seen := by simp [List.mem_cons, hak, has]
        have h1 : dedupKeysAux rest (a :: k :: seen) =
            dedupKeysAux rest (k :: a :: seen) :=
          dedupKeysAux_congr rest _ _ (by intro x; simp [List.mem_cons]; tauto)
        have hfa : (fun x => decide (x ≠ k)) a = true := by simp [hak]
        rw [List.filter_cons, if_pos hfa]
        simp only [dedupKeysAux, if_neg hnot, if_neg has]
        exact congrArg (a :: ·) (h1.trans (ih (a :: seen) k))

/-! ### Claim C9 -/

/-- Claim C9: the probe's address report de-duplicates by `(family, ip)`
pair — each pair of the resolution result appears exactly once (no
duplicates, membership preserved), relative first-seen order is preserved
(the result is a sublist of the input, and a repeated head is kept once and
filtered from the remainder) — the printed line carries the literals of the
first 10 unique pairs, and a failure of the resolve-and-print step is
swallowed: it changes neither the protocol events nor the process result. -/
theorem probe_resolved_report_dedup_and_swallow
    (addrs : List (SockFamily × String)) (k : SockFamily × String)
    (cfg : ResolvedConfig) (auth : Bool) (po : PhaseOutcomes)
    (q c : Option PyErr) (e : PyErr)
    (r2 : Except PyErr (List (SockFamily × String))) :
    (uniquePairs addrs).Nodup
    ∧ (k ∈ uniquePairs addrs ↔ k ∈ addrs)
    ∧ List.Sublist (uniquePairs addrs) addrs
    ∧ uniquePairs (k :: addrs) =
        k :: uniquePairs (addrs.filter (fun x => decide (x ≠ k)))
    ∧ (probeRun cfg auth (Except.ok addrs) po q c).printedIps =
        (if uniquePairs addrs = [] then Option.none
         else some (((uniquePairs addrs).take 10).map Prod.snd))
    ∧ (probeRun cfg auth (Except.error e) po q c).printedIps = Option.none
    ∧ (probeRun cfg auth (Except.error e) po q c).events =
        (probeRun cfg auth r2 po q c).events
    ∧ (probeRun cfg auth (Except.error e) po q c).result =
        (probeRun cfg auth r2 po q c).result := by
  obtain ⟨pc, r1a, r2a, r3a, r4a, r5a⟩ := po
  refine ⟨nodup_dedupKeysAux addrs [], by simp [uniquePairs, mem_dedupKeysAux],
    dedupKeysAux_sublist addrs [], ?_, ?_, ?_, ?_, ?_⟩
  · show dedupKeysAux (k :: addrs) [] = _
    simp only [dedupKeysAux, if_neg (List.not_mem_nil k)]
    simp [dedupKeysAux_seen_cons addrs [] k, uniquePairs]
  · cases pc <;> simp [probeRun, probePrintedIps, uniquePairs]
  · cases pc <;> simp [probeRun, probePrintedIps]
  · cases pc <;> simp [probeRun]
  · cases pc <;> simp [probeRun]

/-! ### Inversion of configuration resolution -/

/-- Whatever `_resolve_config` accepts satisfies every one of its guards. -/
theorem resolveConfig_ok_implies (args : Args) (cfg : ResolvedConfig)
    (h : resolveConfig args = .ok cfg) :
    pyTruthy args.smtpHost = true
    ∧ pyTruthy args.fromAddr = true
    ∧ pyTruthy args.toArg = true
    ∧ splitRecipients (args.toArg.getD "") ≠ []
    ∧ ¬(pyTruthy args.smtpUsername = true ∧ args.smtpPassword = Option.none)
    ∧ parseTlsVersion args.tlsMinVersion = .ok cfg.tlsMinVersion
    ∧ parseTlsVersion args.tlsMaxVersion = .ok cfg.tlsMaxVersion
    ∧ (∀ mn mx, cfg.tlsMinVersion = some mn → cfg.tlsMaxVersion = some mx →
        mn.toNat ≤ mx.toNat) := by
  unfold resolveConfig at h
  repeat' split at h
  all_goals (try simp_all)
  all_goals (repeat' split at h)
  all_goals (try simp_all)
  all_goals (subst h; refine ⟨rfl, rfl, ?_⟩; intro mn mx hmn hmx; simp_all)

/-- `_resolve_config` rejects (with a `parser.error`) any argument set with
a username but no password, an empty recipient split, or inverted TLS
version pins. -/
theorem resolveConfig_error_exists (args : Args)
    (hbad : (pyTruthy args.smtpUsername = true ∧ args.smtpPassword = Option.none)
      ∨ splitRecipients (args.toArg.getD "") = []
      ∨ ∃ mn mx, parseTlsVersion args.tlsMinVersion = .ok (some mn) ∧
          parseTlsVersion args.tlsMaxVersion = .ok (some mx) ∧ mx.toNat < mn.toNat) :
    ∃ msg, resolveConfig args = Except.error msg := by
  cases hr : resolveConfig args with
  | error m => exact ⟨m, rfl⟩
  | ok cfg =>
    obtain ⟨-, -, -, hto, hup, hmn, hmx, hord⟩ := resolveConfig_ok_implies args cfg hr
    rcases hbad with hb | hb | ⟨mn, mx, h1, h2, h3⟩
    · exact absurd hb hup
    · exact absurd hb hto
    · have e1 : cfg.tlsMinVersion = some mn := Except.ok.inj (hmn.symm.trans h1)
      have e2 : cfg.tlsMaxVersion = some mx := Except.ok.inj (hmx.symm.trans h2)
      exact absurd (hord mn mx e1 e2) (by omega)

/-- A configuration-resolution failure makes `main` exit with status 2
before any protocol event. -/
theorem mainRun_config_error (args : Args) (probe probeAuth : Bool)
    (resolveAll : Except PyErr (List (SockFamily × String)))
    (po : PhaseOutcomes) (q c : Option PyErr)
    (h : ∃ msg, resolveConfig args = Except.error msg) :
    mainRun args probe probeAuth resolveAll po q c =
      ⟨Option.none, [], ProcResult.exit 2⟩ := by
  obtain ⟨msg, hmsg⟩ := h
  simp [mainRun, hmsg]

/-! ### Claim C4 -/

/-- Claim C4, amended: a username with no password is rejected as a
configuration error before any network I/O in EVERY mode, probe mode
included; the probe's deliberate empty-password login arises only when a
password is explicitly set to the empty string (see the counterexample
theorem for that evaluation). -/
theorem username_without_password_config_error (args : Args)
    (probe probeAuth : Bool)
    (resolveAll : Except PyErr (List (SockFamily × String)))
    (po : PhaseOutcomes) (q c : Option PyErr)
    (hu : pyTruthy args.smtpUsername = true)
    (hp : args.smtpPassword = Option.none) :
    (∃ msg, resolveConfig args = Except.error msg)
    ∧ mainRun args probe probeAuth resolveAll po q c =
        ⟨Option.none, [], ProcResult.exit 2⟩ := by
  have he := resolveConfig_error_exists args (Or.inl ⟨hu, hp⟩)
  exact ⟨he, mainRun_config_error args probe probeAuth resolveAll po q c he⟩

/-- Witness for the amended C4 at a concrete argument set. -/
theorem username_without_password_config_error_witness :
    (∃ msg, resolveConfig sampleArgsNoPw = Except.error msg)
    ∧ mainRun sampleArgsNoPw true true (Except.ok []) happyOutcomes
        Option.none Option.none = ⟨Option.none, [], ProcResult.exit 2⟩ :=
  username_without_password_config_error sampleArgsNoPw true true
    (Except.ok []) happyOutcomes Option.none Option.none (by decide) (by decide)

/-- Counterexample to C4 as stated: in probe mode (with probe-auth
requested), a username with no password does NOT lead to a deliberate
empty-password authentication attempt — configuration resolution fails
first, with status 2 and no protocol event.  (The probe's empty-password
login does occur, but only when the password is explicitly the empty
string.) -/
theorem probe_mode_username_without_password_never_authenticates :
    mainRun sampleArgsNoPw true true (Except.ok []) happyOutcomes
      Option.none Option.none = ⟨Option.none, [], ProcResult.exit 2⟩
    ∧ (mainRun sampleArgsNoPw true true (Except.ok []) happyOutcomes
        Option.none Option.none).events = []
    ∧ resolveConfig sampleArgsNoPw = Except.error
        "--smtp-password is required when --smtp-username is set (or env SMTP_PASSWORD)"
    ∧ SMTPEvent.login "user@example.net" "" ∈
        (probeRun { sampleStarttlsCfg with smtpPassword := some "" } true
          (Except.ok []) happyOutcomes Option.none Option.none).events := by
  decide

/-! ### Claim C6 -/

/-- Claim C6: with both TLS version pins set and min > max (under the order
1.0 < 1.1 < 1.2 < 1.3), configuration construction fails before any network
I/O; with min ≤ max the pin check passes and (all other guards passing)
construction succeeds with those pins. -/
theorem tls_version_pin_order_invariant (args : Args) (mn mx : TLSVersion)
    (probe probeAuth : Bool)
    (resolveAll : Except PyErr (List (SockFamily × String)))
    (po : PhaseOutcomes) (q c : Option PyErr) (p : Int) (fam : AddressFamily)
    (hmn : parseTlsVersion args.tlsMinVersion = .ok (some mn))
    (hmx : parseTlsVersion args.tlsMaxVersion = .ok (some mx)) :
    (mn.toNat > mx.toNat →
      (∃ msg, resolveConfig args = Except.error msg)
      ∧ mainRun args probe probeAuth resolveAll po q c =
          ⟨Option.none, [], ProcResult.exit 2⟩)
    ∧ (mn.toNat ≤ mx.toNat →
       pyTruthy args.smtpHost = true →
       parsePyInt (args.smtpPort.getD (toString (defaultPort args.smtpTls))) = some p →
       pyTruthy args.fromAddr = true →
       pyTruthy args.toArg = true →
       splitRecipients (args.toArg.getD "") ≠ [] →
       ¬(pyTruthy args.smtpUsername = true ∧ args.smtpPassword = Option.none) →
       parseAddressFamily args.addressFamily = .ok fam →
       ∃ cfg, resolveConfig args = .ok cfg ∧ cfg.tlsMinVersion = some mn ∧
         cfg.tlsMaxVersion = some mx) := by
  constructor
  · intro hgt
    have he := resolveConfig_error_exists args
      (Or.inr (Or.inr ⟨mn, mx, hmn, hmx, by omega⟩))
    exact ⟨he, mainRun_config_error args probe probeAuth resolveAll po q c he⟩
  · intro hle hhost hport hfrom hto hne hup hfam
    have hnotgt : ¬(mn.toNat > mx.toNat) := by omega
    simp only [resolveConfig, hhost, hport, hfrom, hto, hfam, hmn, hmx,
      Bool.true_eq_false, if_false, if_neg hne, if_neg hup,
      decide_eq_false hnotgt]
    simp

/-- Witness for C6 in both directions: pins `1.2`/`1.1` are rejected before
any network I/O, pins `1.1`/`1.2` are accepted. -/
theorem tls_version_pin_order_invariant_witness :
    ((∃ msg, resolveConfig (sampleArgsPinned "1.2" "1.1") = Except.error msg)
      ∧ mainRun (sampleArgsPinned "1.2" "1.1") false false (Except.ok [])
          happyOutcomes Option.none Option.none =
          ⟨Option.none, [], ProcResult.exit 2⟩)
    ∧ (∃ cfg, resolveConfig (sampleArgsPinned "1.1" "1.2") = .ok cfg ∧
        cfg.tlsMinVersion = some TLSVersion.v1_1 ∧
        cfg.tlsMaxVersion = some TLSVersion.v1_2) := by
  constructor
  · exact (tls_version_pin_order_invariant (sampleArgsPinned "1.2" "1.1")
      TLSVersion.v1_2 TLSVersion.v1_1 false false (Except.ok []) happyOutcomes
      Option.none Option.none 587 AddressFamily.auto (by decide) (by decide)).1
      (by decide)
  · exact (tls_version_pin_order_invariant (sampleArgsPinned "1.1" "1.2")
      TLSVersion.v1_1 TLSVersion.v1_2 false false (Except.ok []) happyOutcomes
      Option.none Option.none 587 AddressFamily.auto (by decide) (by decide)).2
      (by decide) (by decide) (by decide) (by decide) (by decide) (by decide)
      (by decide) (by decide)

/-! ### String-processing lemmas for recipient splitting -/

/-- `pyStrip` is front-strip followed by Mathlib's back-strip. -/
theorem pyStrip_eq_rdrop (l : List Char) :
    pyStrip l = List.rdropWhile Char.isWhitespace (l.dropWhile Char.isWhitespace) :=
  rfl

/-- A stripped list is already front-stripped. -/
theorem dropWhile_pyStrip (l : List Char) :
    (pyStrip l).dropWhile Char.isWhitespace = pyStrip l := by
  rw [pyStrip_eq_rdrop]
  cases h : List.rdropWhile Char.isWhitespace (l.dropWhile Char.isWhitespace) with
  | nil => simp
  | cons a t =>
    obtain ⟨t2, ht2⟩ := (List.rdropWhile_prefix Char.isWhitespace
      (l := l.dropWhile Char.isWhitespace))
    rw [h] at ht2
    have hna : Char.isWhitespace a = false := by
      have := List.head?_dropWhile_not Char.isWhitespace l
      rw [← ht2] at this
      simpa using this
    simp [hna]

/-- Stripping is idempotent. -/
theorem pyStrip_idem (l : List Char) : pyStrip (pyStrip l) = pyStrip l := by
  rw [pyStrip_eq_rdrop (pyStrip l), dropWhile_pyStrip, pyStrip_eq_rdrop l]
  exact List.rdropWhile_idempotent _ _

/-- A list of whitespace characters strips to nothing. -/
theorem pyStrip_all_ws (l : List Char) (h : ∀ c ∈ l, c.isWhitespace = true) :
    pyStrip l = [] := by
  rw [pyStrip_eq_rdrop, List.dropWhile_eq_nil_iff.2 (by simpa using h)]
  simp

/-- `split` always yields at least one chunk. -/
theorem splitOnComma_ne_nil : ∀ l : List Char, splitOnComma l ≠ [] := by
  intro l
  cases l with
  | nil => simp [splitOnComma]
  | cons c rest =>
    by_cases hc : c = ','
    · simp [splitOnComma, hc]
    · simp only [splitOnComma, if_neg hc]
      cases h : splitOnComma rest <;> simp

/-- Every character of every chunk comes from the input and is not the
separator. -/
theorem splitOnComma_chunk_chars :
    ∀ (l : List Char) (chunk : List Char), chunk ∈ splitOnComma l →
      ∀ c ∈ chunk, c ∈ l ∧ ¬(c = ',') := by
  intro l
  induction l with
  | nil =>
    intro chunk hchunk c hc
    simp [splitOnComma] at hchunk
    subst hchunk
    simp at hc
  | cons a rest ih =>
    intro chunk hchunk c hc
    by_cases ha : a = ','
    · rw [splitOnComma, if_pos ha] at hchunk
      rcases List.mem_cons.1 hchunk with h | h
      · subst h; simp at hc
      · obtain ⟨h1, h2⟩ := ih chunk h c hc
        exact ⟨List.mem_cons_of_mem a h1, h2⟩
    · rw [splitOnComma, if_neg ha] at hchunk
      cases hs : splitOnComma rest with
      | nil => exact absurd hs (splitOnComma_ne_nil rest)
      | cons ch chs =>
        rw [hs] at hchunk
        rcases List.mem_cons.1 hchunk with h | h
        · subst h
          rcases List.mem_cons.1 hc with h2 | h2
          · subst h2; exact ⟨List.mem_cons_self c rest, ha⟩
          · obtain ⟨h3, h4⟩ := ih ch (hs ▸ List.mem_cons_self ch chs) c h2
            exact ⟨List.mem_cons_of_mem a h3, h4⟩
        · obtain ⟨h3, h4⟩ := ih chunk (hs ▸ List.mem_cons_of_mem ch h) c hc
          exact ⟨List.mem_cons_of_mem a h3, h4⟩

/-- Replacing `;` by `,` twice is the same as once. -/
theorem semiToComma_idem (c : Char) :
    semiToComma (semiToComma c) = semiToComma c := by
  by_cases h : c = ';' <;> simp [semiToComma, h]

/-- Semicolons and commas are interchangeable separators: pre-normalising
the input does not change the split. -/
theorem splitRecipientsCore_map_semi (cs : List Char) :
    splitRecipientsCore (cs.map semiToComma) = splitRecipientsCore cs := by
  unfold splitRecipientsCore
  rw [List.map_map]
  congr 2
  exact List.map_congr_left (fun a _ => semiToComma_idem a)

/-- Every produced recipient is stripped and non-empty. -/
theorem splitRecipientsCore_mem (cs a : List Char)
    (h : a ∈ splitRecipientsCore cs) : pyStrip a = a ∧ a ≠ [] := by
  unfold splitRecipientsCore at h
  obtain ⟨chunk, _, hf⟩ := List.mem_filterMap.1 h
  by_cases he : pyStrip chunk = []
  · simp [he] at hf
  · simp only [if_neg he] at hf
    have ha : pyStrip chunk = a := Option.some.inj hf
    subst ha
    exact ⟨pyStrip_idem chunk, he⟩

/-- An input of separators and whitespace only splits to no recipients. -/
theorem splitRecipientsCore_sep_ws (cs : List Char)
    (h : ∀ c ∈ cs, c = ';' ∨ c = ',' ∨ c.isWhitespace = true) :
    splitRecipientsCore cs = [] := by
  unfold splitRecipientsCore
  rw [List.filterMap_eq_nil_iff]
  intro chunk hchunk
  have hws : ∀ c ∈ chunk, c.isWhitespace = true := by
    intro c hc
    obtain ⟨hmem, hnc⟩ := splitOnComma_chunk_chars _ chunk hchunk c hc
    obtain ⟨c0, hc0, rfl⟩ := List.mem_map.1 hmem
    rcases h c0 hc0 with h1 | h1 | h1
    · exact absurd (by subst h1; decide) hnc
    · exact absurd (by subst h1; decide) hnc
    · have : c0 ≠ ';' := by rintro rfl; simp at h1
      simpa [semiToComma, this] using h1
  simp [pyStrip_all_ws chunk hws]

/-! ### Claim C10 -/

/-- Claim C10: recipient splitting treats `;` and `,` interchangeably,
strips each entry, and drops empty entries; consequently a `--to` value of
separators and whitespace only yields no recipients and configuration
resolution fails before any network I/O. -/
theorem recipient_splitting_and_empty_to_rejected (args : Args) (s : String)
    (probe probeAuth : Bool)
    (resolveAll : Except PyErr (List (SockFamily × String)))
    (po : PhaseOutcomes) (q c : Option PyErr)
    (hto : args.toArg = some s)
    (hsep : ∀ ch ∈ s.toList, ch = ';' ∨ ch = ',' ∨ ch.isWhitespace = true) :
    (∀ cs : List Char,
      splitRecipientsCore (cs.map semiToComma) = splitRecipientsCore cs)
    ∧ (∀ cs a : List Char, a ∈ splitRecipientsCore cs → pyStrip a = a ∧ a ≠ [])
    ∧ splitRecipients s = []
    ∧ (∃ msg, resolveConfig args = Except.error msg)
    ∧ mainRun args probe probeAuth resolveAll po q c =
        ⟨Option.none, [], ProcResult.exit 2⟩ := by
  have hsplit : splitRecipients s = [] := splitRecipientsCore_sep_ws s.toList hsep
  have he : ∃ msg, resolveConfig args = Except.error msg :=
    resolveConfig_error_exists args (Or.inr (Or.inl (by rw [hto]; exact hsplit)))
  exact ⟨splitRecipientsCore_map_semi, splitRecipientsCore_mem, hsplit, he,
    mainRun_config_error args probe probeAuth resolveAll po q c he⟩

/-- Witness for C10 at the concrete `--to` value `" ; ,,  ; "`. -/
theorem recipient_splitting_and_empty_to_rejected_witness :
    splitRecipients " ; ,,  ; " = []
    ∧ (∃ msg, resolveConfig sampleArgsSepTo = Except.error msg)
    ∧ mainRun sampleArgsSepTo false false (Except.ok []) happyOutcomes
        Option.none Option.none = ⟨Option.none, [], ProcResult.exit 2⟩ := by
  have h := recipient_splitting_and_empty_to_rejected sampleArgsSepTo " ; ,,  ; "
    false false (Except.ok []) happyOutcomes Option.none Option.none rfl
    (by decide)
  exact ⟨h.2.2.1, h.2.2.2.1, h.2.2.2.2⟩

end SendEmail
